import Mathlib

/-!
Shallow embedding of `src/missing_modules.py` (the missing-module detector /
installer) together with theorems checking the natural-language specification
against it.  Python strings are modelled through their character lists so that
every operation is structurally recursive and evaluates inside the kernel;
Python dictionaries keyed by package name are modelled as association lists or
as functions `String → Option PackageInfo`.  The external environment
(`importlib.util.find_spec`) and the external package manager (`pip` invoked
through `subprocess.run`) are modelled as explicit parameters giving, for each
package name, the outcome the external world reports.
-/

namespace MissingModules

/-- Python dataclass `PackageInfo` (src/missing_modules.py lines 34-42).
`install_status` is `none` for "not attempted" and `some true` / `some false`
for a succeeded / failed attempt; `install_name` and `error_message` are
`none` when the Python field is `None`. -/
structure PackageInfo where
  import_name : String
  install_name : Option String := none
  is_stdlib : Bool := false
  is_available : Bool := false
  install_status : Option Bool := none
  error_message : Option String := none
deriving DecidableEq, Repr

/-- Class attribute `PackageManager.STDLIB_PACKAGES` (lines 49-75),
transcribed verbatim. -/
def STDLIB_PACKAGES : List String :=
  ["abc", "argparse", "array", "ast", "asyncio", "atexit", "base64",
   "binascii", "builtins", "bz2", "calendar", "cgi", "chunk", "cmd",
   "code", "codecs", "collections", "colorsys", "configparser", "contextlib",
   "copy", "copyreg", "csv", "datetime", "decimal", "difflib", "dis",
   "email", "encodings", "enum", "errno", "faulthandler", "fcntl", "filecmp",
   "fileinput", "fnmatch", "fractions", "ftplib", "functools", "gc",
   "getopt", "getpass", "gettext", "glob", "graphlib", "gzip", "hashlib",
   "heapq", "hmac", "html", "http", "imaplib", "imghdr", "importlib",
   "inspect", "io", "ipaddress", "itertools", "json", "keyword", "linecache",
   "locale", "logging", "lzma", "mailbox", "marshal", "math", "mimetypes",
   "mmap", "modulefinder", "multiprocessing", "netrc", "numbers", "operator",
   "optparse", "os", "pathlib", "pdb", "pickle", "pickletools", "pipes",
   "pkgutil", "platform", "plistlib", "poplib", "pprint", "profile",
   "pstats", "pty", "pwd", "py_compile", "pyclbr", "pydoc", "queue",
   "quopri", "random", "re", "readline", "reprlib", "resource", "rlcompleter",
   "runpy", "sched", "secrets", "select", "selectors", "shelve", "shlex",
   "shutil", "signal", "site", "smtpd", "smtplib", "sndhdr", "socket",
   "socketserver", "sqlite3", "ssl", "stat", "statistics", "string",
   "stringprep", "struct", "subprocess", "sys", "sysconfig", "tabnanny",
   "tarfile", "tempfile", "termios", "textwrap", "threading", "time",
   "timeit", "token", "tokenize", "trace", "traceback", "tracemalloc",
   "types", "typing", "unicodedata", "unittest", "urllib", "uuid", "venv",
   "warnings", "wave", "weakref", "webbrowser", "winreg", "winsound",
   "wsgiref", "xml", "xmlrpc", "zipapp", "zipfile", "zipimport", "zlib"]

/-- Class attribute `PackageManager.PACKAGE_MAPPINGS` (lines 78-81). -/
def PACKAGE_MAPPINGS : List (String × String) :=
  [("PIL", "Pillow"), ("gi", "PyGObject")]

/-- Class attribute `PackageManager.INVALID_PATTERNS` (lines 84-100):
the template string, the false-positive token, template/variable markers,
both braces, angle brackets, both path separators, both quote characters,
and the whitespace characters.  The single-quote entry is written through
its code point 39. -/
def INVALID_PATTERNS : List String :=
  ["%(module)s", "lowest", "%", "$", "\x7b", "\x7d", "<", ">", "\\", "/",
   "\"", String.mk [Char.ofNat 39], " ", "\t", "\n"]

/-- Does the character list start with the given pattern?  Auxiliary for the
Python substring test. -/
def listStarts : List Char → List Char → Bool
  | [], _ => true
  | _ :: _, [] => false
  | p :: ps, c :: cs => p == c && listStarts ps cs

/-- Does the pattern occur at some position of the character list?  Auxiliary
for the Python substring test. -/
def listOccurs (p : List Char) : List Char → Bool
  | [] => p.isEmpty
  | c :: cs => listStarts p (c :: cs) || listOccurs p cs

/-- Python substring test `pat in s`. -/
def strContains (s pat : String) : Bool :=
  listOccurs pat.data s.data

/-- Python `str.strip()` on a character list: drop leading and trailing
whitespace (restricted to the ASCII whitespace Lean recognises). -/
def trimWs (cs : List Char) : List Char :=
  ((cs.dropWhile Char.isWhitespace).reverse.dropWhile Char.isWhitespace).reverse

/-- Python `s.split(sep)[0]`: the prefix of the list before the first
occurrence of the (non-empty) separator. -/
def upToSep (sep : List Char) : List Char → List Char
  | [] => []
  | c :: cs => if listStarts sep (c :: cs) then [] else c :: upToSep sep cs

/-- Python `s.split(sep)` for a one-character separator, keeping empty
pieces, as Python does. -/
def splitOnChar (sep : Char) : List Char → List (List Char)
  | [] => [[]]
  | c :: cs =>
    if c == sep then [] :: splitOnChar sep cs
    else
      match splitOnChar sep cs with
      | [] => [[c]]
      | h :: t => (c :: h) :: t

/-- Python `s.split()` with no argument: split on whitespace runs, discarding
empty pieces.  The accumulator holds the current word reversed. -/
def pyWordsAux : List Char → List Char → List (List Char)
  | [], acc => if acc.isEmpty then [] else [acc.reverse]
  | c :: cs, acc =>
    if c.isWhitespace then
      if acc.isEmpty then pyWordsAux cs [] else acc.reverse :: pyWordsAux cs []
    else pyWordsAux cs (c :: acc)

/-- Python `s.split()` with no argument. -/
def pyWords (cs : List Char) : List (List Char) :=
  pyWordsAux cs []

/-- Python `str.lower()` (restricted to ASCII case mapping). -/
def pyToLower (s : String) : String :=
  String.mk (s.data.map Char.toLower)

/-- The name-cleaning step of the validator: Python
`name.split("#")[0].strip()` (line 192). -/
def cleanName (s : String) : String :=
  String.mk (trimWs (upToSep ['#'] s.data))

/-- Method `PackageManager.is_valid_package_name` (lines 190-209): after
comment-stripping and trimming, the name must be non-empty, not in the
stdlib table (checked case-sensitively), contain no invalid pattern as a
substring, contain at least one alphanumeric character, start with a letter
or an underscore, and not start with an underscore. -/
def is_valid_package_name (name : String) : Bool :=
  let n := cleanName name
  !n.data.isEmpty && !(STDLIB_PACKAGES.contains n) &&
  !(INVALID_PATTERNS.any fun p => strContains n p) &&
  (n.data.any fun c => c.isAlphanum) &&
  (n.data.headI.isAlpha || n.data.headI == '_') &&
  !(listStarts ['_'] n.data)

/-- Method `PackageManager.get_install_name` (lines 211-213):
`PACKAGE_MAPPINGS.get(import_name, import_name)`. -/
def get_install_name (import_name : String) : String :=
  match PACKAGE_MAPPINGS.lookup import_name with
  | some v => v
  | none => import_name

/-- Per-line body of `PackageManager.extract_imports` (lines 220-240): the
raw candidate names one stripped source line contributes, before the
validity filter.  Blank lines and full-line comments contribute nothing;
`import a, b as c` lines contribute each comma segment stripped of its
alias, dots and inline comment; `from x import y` lines contribute the
second whitespace-delimited token stripped of dots and inline comment. -/
def parseImportLine (line : String) : List String :=
  let l := trimWs line.data
  if l.isEmpty || listStarts ['#'] l then []
  else if listStarts "import ".data l then
    (splitOnChar ',' (l.drop 7)).map fun part =>
      String.mk (trimWs (upToSep ['#'] (upToSep ['.'] (upToSep " as ".data (trimWs part)))))
  else if listStarts "from ".data l then
    match pyWords l with
    | _ :: second :: _ =>
        [String.mk (trimWs (upToSep ['#'] (upToSep ['.'] second)))]
    | _ => []
  else []

/-- Raw candidate names of a whole file, in source order: the names the loop
of `extract_imports` computes before the `if name and is_valid_package_name`
guard. -/
def importCandidates (lines : List String) : List String :=
  (lines.map parseImportLine).flatten

/-- Method `PackageManager.extract_imports` (lines 215-244): the candidates
that pass the truthiness-and-validity guard of line 231 / 239.  The Python
set of results is modelled as the list of accepted candidates in source
order. -/
def extract_imports (lines : List String) : List String :=
  (importCandidates lines).filter fun n => !n.data.isEmpty && is_valid_package_name n

/-- Outcome `importlib.util.find_spec(name)` reports for a name inside
`verify_package` (lines 259-269): a spec was found, no spec was found, one
of the caught exception types (ImportError / AttributeError / ValueError)
was raised, or some other exception with the given message was raised. -/
inductive SpecResult where
  | found
  | notFound
  | importErr
  | otherErr (msg : String)
deriving DecidableEq, Repr

/-- The case-insensitive stdlib test of line 251:
`package_name.lower() in (p.lower() for p in STDLIB_PACKAGES)`. -/
def stdlibLowerMem (package_name : String) : Bool :=
  STDLIB_PACKAGES.any fun p => pyToLower p == pyToLower package_name

/-- Method `PackageManager.verify_package` (lines 246-271), parameterised by
the outcome `env` the module-resolution probe reports for each name. -/
def verify_package (env : String → SpecResult) (package_name : String) : PackageInfo :=
  if stdlibLowerMem package_name then
    { import_name := package_name, is_stdlib := true, is_available := true }
  else
    let base : PackageInfo :=
      { import_name := package_name, install_name := some (get_install_name package_name) }
    match env package_name with
    | .found => { base with is_available := true }
    | .notFound => { base with is_available := false }
    | .importErr => { base with is_available := false }
    | .otherErr msg => { base with is_available := false, error_message := some msg }

/-- Method `PackageManager.detect_missing_packages` (lines 273-324) after the
scan: verify every distinct imported name and keep the records with
`not info.is_available and not info.is_stdlib` (line 314).  The Python set of
names is modelled as a list; the completion order of the thread pool only
permutes the result list, which the theorems below treat through membership. -/
def detect_missing_packages (env : String → SpecResult) (all_imports : List String) :
    List PackageInfo :=
  (all_imports.map (verify_package env)).filter fun info =>
    !info.is_available && !info.is_stdlib

/-- Python truthiness of `a or b` for an optional string `a` with a string
default `b`, as in line 343. -/
def pyOrName (a : Option String) (b : String) : String :=
  match a with
  | none => b
  | some s => if s.data.isEmpty then b else s

/-- The records `install_missing_packages` (lines 326-348) actually submits:
the detected missing records minus those whose import name lowercases to
`"new"` (the `continue` of lines 340-341). -/
def installSubmitted (env : String → SpecResult) (all_imports : List String) :
    List PackageInfo :=
  (detect_missing_packages env all_imports).filter fun info =>
    !(pyToLower info.import_name == "new")

/-- The names `install_missing_packages` passes to `install_package`
(lines 343-344). -/
def install_missing_targets (env : String → SpecResult) (all_imports : List String) :
    List String :=
  (installSubmitted env all_imports).map fun info =>
    pyOrName info.install_name info.import_name

/-- Python truthiness of an optional string, as used in the filters of
lines 398 and 524 (`info.install_name` in boolean position). -/
def truthy (o : Option String) : Bool :=
  !((o.getD "").data.isEmpty)

/-- The `to_install` selection of `process_packages` (lines 396-399): records
with `info.is_available and not info.is_stdlib and info.install_name`. -/
def process_to_install (recs : List PackageInfo) : List PackageInfo :=
  recs.filter fun info =>
    info.is_available && !info.is_stdlib && truthy info.install_name

/-- Outcome of one `subprocess.run([..., "pip", "install", name], ...)`
invocation: the exit status of pip and its captured standard error text. -/
structure PipOutcome where
  returncode : Nat
  errText : String
deriving DecidableEq, Repr

/-- The Python exceptions arising in the modelled fragment:
`subprocess.CalledProcessError` carrying the exit status and the captured
standard error. -/
inductive PyExc where
  | calledProcessError (returncode : Nat) (errText : String)
deriving DecidableEq, Repr

/-- Semantics of `subprocess.run(..., check=True)` (lines 149-154): return
the completed process on exit status zero, raise `CalledProcessError`
otherwise. -/
def subprocessRunCheck (o : PipOutcome) : Except PyExc PipOutcome :=
  if o.returncode == 0 then .ok o
  else .error (.calledProcessError o.returncode o.errText)

/-- Method `PackageManager.install_package` (lines 138-159) with its
exception behaviour explicit: the `try` block returns `True` on a
successful checked run, and the `except subprocess.CalledProcessError`
handler logs the captured standard error and returns `False`. -/
def install_package_run (o : PipOutcome) : Except PyExc Bool :=
  match subprocessRunCheck o with
  | .ok _ => .ok true
  | .error (.calledProcessError _ _) => .ok false

/-- Boolean value of `install_package` as its callers see it; the `.error`
branch is unreachable because every `CalledProcessError` is caught
(proved below). -/
def install_package (o : PipOutcome) : Bool :=
  match install_package_run o with
  | .ok b => b
  | .error _ => false

/-- The `results` dictionary built by the loop of
`install_missing_packages` (lines 339-344), as an association list in
iteration order, parameterised by the pip outcome for each submitted name. -/
def install_missing_results (env : String → SpecResult) (pip : String → PipOutcome)
    (all_imports : List String) : List (String × Bool) :=
  (install_missing_targets env all_imports).map fun n => (n, install_package (pip n))

/-- Lexicographic-by-code-point comparison of character lists: the order
Python's `sorted` uses on strings. -/
def charListLe : List Char → List Char → Bool
  | [], _ => true
  | _ :: _, [] => false
  | a :: as, b :: bs => if a == b then charListLe as bs else decide (a < b)

/-- Lexicographic-by-code-point comparison of strings. -/
def strLeB (a b : String) : Bool :=
  charListLe a.data b.data

/-- One insertion step of an insertion sort with the Python string order. -/
def orderedInsertStr (a : String) : List String → List String
  | [] => [a]
  | b :: l => if strLeB a b then a :: b :: l else b :: orderedInsertStr a l

/-- Python `sorted` on a list of strings (insertion sort; for the linear
string order the sorted output is unique, so the choice of algorithm does
not matter). -/
def pySorted : List String → List String
  | [] => []
  | a :: l => orderedInsertStr a (pySorted l)

/-- The selection of `generate_requirements` (lines 521-525): the
`install_name`s of the records with
`info.is_available and not info.is_stdlib and info.install_name`. -/
def requirementsSelection (packages : List PackageInfo) : List String :=
  (packages.filter fun info =>
    info.is_available && !info.is_stdlib && truthy info.install_name).map
    fun info => info.install_name.getD ""

/-- Method `PackageManager.generate_requirements` (lines 519-532): the text
written to the requirements file, or `none` when the selection is empty and
nothing is written (lines 527-532).  `"\n".join(sorted(requirements))` is
modelled on the character lists. -/
def generate_requirements (packages : List PackageInfo) : Option String :=
  let requirements := requirementsSelection packages
  if requirements.isEmpty then none
  else some (String.mk (List.intercalate ['\n'] ((pySorted requirements).map String.data)))

/-- Insertion of one completed verification result into the `self.packages`
dictionary, as in `self.packages[package] = info` (line 385). -/
def insertRecord (m : String → Option PackageInfo) (key : String) (v : PackageInfo) :
    String → Option PackageInfo :=
  fun k => if k = key then some v else m k

/-- The `self.packages` dictionary after the verification stage of
`process_packages` (lines 375-392): the verification results folded into the
map in thread-pool completion order. -/
def buildRecordMap (env : String → SpecResult) (completionOrder : List String) :
    String → Option PackageInfo :=
  completionOrder.foldl (fun m name => insertRecord m name (verify_package env name))
    fun _ => none

/-- Observable outcome of one command-line (non-interactive) run of `main`
(lines 690-727): the boolean results of the installation attempts the run
performed, and whether an exception escaped the `try` block. -/
structure CliRun where
  install_results : List Bool
  unhandled_error : Bool
deriving DecidableEq, Repr

/-- Exit status of that run: the `except` handler is the only reach of
`sys.exit(1)` (line 727); the installation results are logged but never
inspected for the exit status, and falling off the end of `main` exits
with status zero. -/
def main_exit_code (r : CliRun) : Nat :=
  if r.unhandled_error then 1 else 0

/-! Helper lemmas. -/

/-- The record `verify_package` returns carries the verified name. -/
theorem verify_package_import_name (env : String → SpecResult) (n : String) :
    (verify_package env n).import_name = n := by
  unfold verify_package
  by_cases h : stdlibLowerMem n = true
  · simp [h]
  · simp only [h]
    cases env n <;> simp

/-- Verification never touches `install_status`. -/
theorem verify_package_install_status (env : String → SpecResult) (n : String) :
    (verify_package env n).install_status = none := by
  unfold verify_package
  by_cases h : stdlibLowerMem n = true
  · simp [h]
  · simp only [h]
    cases env n <;> simp

/-- The checked pip run is total: `install_package_run` always returns a
value, never an uncaught exception. -/
theorem install_package_run_ok (o : PipOutcome) :
    install_package_run o = Except.ok (install_package o) := by
  unfold install_package install_package_run subprocessRunCheck
  by_cases h : o.returncode == 0 <;> simp [h]

/-- Boolean value of `install_package` in terms of the pip exit status. -/
theorem install_package_eq (o : PipOutcome) :
    install_package o = (o.returncode == 0) := by
  unfold install_package install_package_run subprocessRunCheck
  by_cases h : o.returncode == 0 <;> simp [h]

/-- The executable lexicographic comparison agrees with the lexicographic
order on character lists. -/
theorem charListLe_iff (cs ds : List Char) :
    charListLe cs ds = true ↔ ¬ List.Lex (· < ·) ds cs := by
  induction cs generalizing ds with
  | nil =>
    cases ds with
    | nil =>
      simp only [charListLe, true_iff]
      intro h; cases h
    | cons d ds =>
      simp only [charListLe, true_iff]
      intro h; cases h
  | cons c cs ih =>
    cases ds with
    | nil =>
      simp [charListLe]
      exact List.Lex.nil
    | cons d ds =>
      simp only [charListLe]
      by_cases hb : (c == d) = true
      · have hcd : c = d := beq_iff_eq.mp hb
        subst hcd
        rw [if_pos hb, ih ds]
        constructor
        · intro h hl
          exact h (List.Lex.cons_iff.mp hl)
        · intro h hl
          exact h (List.Lex.cons hl)
      · have hcd : c ≠ d := fun h => hb (beq_iff_eq.mpr h)
        rw [if_neg hb]
        simp only [decide_eq_true_eq]
        constructor
        · intro h hl
          cases hl with
          | cons h' => exact hcd rfl
          | rel h' => exact absurd h' (asymm h)
        · intro h
          rcases lt_trichotomy c d with h1 | h1 | h1
          · exact h1
          · exact absurd h1 hcd
          · exact absurd (List.Lex.rel h1) h

/-- The executable string comparison agrees with the string order. -/
theorem strLeB_iff (a b : String) : strLeB a b = true ↔ a ≤ b := by
  rw [strLeB, charListLe_iff]
  rw [← not_lt]
  constructor
  · intro h hl
    exact h (String.lt_iff_toList_lt.mp hl)
  · intro h hl
    exact h (String.lt_iff_toList_lt.mpr hl)

/-- Inserting into the insertion sort yields a permutation of consing. -/
theorem orderedInsertStr_perm (a : String) (l : List String) :
    (orderedInsertStr a l).Perm (a :: l) := by
  induction l with
  | nil => simp [orderedInsertStr]
  | cons b l ih =>
    unfold orderedInsertStr
    by_cases h : strLeB a b = true
    · simp [h]
    · simp only [h, Bool.false_eq_true, if_false]
      exact (ih.cons b).trans (List.Perm.swap a b l)

/-- `pySorted` permutes its input. -/
theorem pySorted_perm (l : List String) : (pySorted l).Perm l := by
  induction l with
  | nil => simp [pySorted]
  | cons a l ih =>
    exact (orderedInsertStr_perm a (pySorted l)).trans (ih.cons a)

/-- Insertion preserves sortedness for the string order. -/
theorem orderedInsertStr_sorted (a : String) (l : List String)
    (h : l.Sorted (· ≤ ·)) : (orderedInsertStr a l).Sorted (· ≤ ·) := by
  induction l with
  | nil => simp [orderedInsertStr]
  | cons b l ih =>
    rw [List.sorted_cons] at h
    unfold orderedInsertStr
    by_cases hab : strLeB a b = true
    · rw [if_pos hab, List.sorted_cons]
      refine ⟨?_, List.sorted_cons.mpr h⟩
      intro x hx
      rcases List.mem_cons.mp hx with hx | hx
      · exact hx ▸ (strLeB_iff a b).mp hab
      · exact le_trans ((strLeB_iff a b).mp hab) (h.1 x hx)
    · rw [if_neg hab, List.sorted_cons]
      refine ⟨?_, ih h.2⟩
      intro x hx
      have hba : b ≤ a := by
        have : ¬ a ≤ b := fun hle => hab ((strLeB_iff a b).mpr hle)
        exact le_of_not_le this
      rcases List.mem_cons.mp ((orderedInsertStr_perm a l).mem_iff.mp hx) with hx | hx
      · exact hx ▸ hba
      · exact h.1 x hx

/-- `pySorted` sorts ascending for the string order. -/
theorem pySorted_sorted (l : List String) : (pySorted l).Sorted (· ≤ ·) := by
  induction l with
  | nil => simp [pySorted]
  | cons a l ih => exact orderedInsertStr_sorted a (pySorted l) ih

/-! Claim theorems. -/

/-- C2 (amended): the exit status of a command-line run of `main` is
non-zero exactly when an unhandled error occurred; installation failures by
themselves leave the exit status zero, because `main` never inspects the
installation results when computing its exit. -/
theorem C2_exit_code (r : CliRun) :
    main_exit_code r ≠ 0 ↔ r.unhandled_error = true := by
  unfold main_exit_code
  by_cases h : r.unhandled_error = true <;> simp [h]

/-- C2 counterexample: a run in which an installation attempt failed
(`false` among the install results) and no unhandled error occurred exits
with status zero, although the claim requires a non-zero exit status. -/
theorem C2_counterexample :
    false ∈ (CliRun.mk [false] false).install_results ∧
    main_exit_code (CliRun.mk [false] false) = 0 := by decide

/-- C5: `install_package` returns true iff the pip invocation reports
success (exit status zero), returns false on a reported failure, and never
propagates an exception to its caller: the checked run always yields a
caught boolean value (`Except.ok`), never an uncaught error. -/
theorem C5_install_package_contract (o : PipOutcome) :
    install_package_run o = Except.ok (install_package o) ∧
    (install_package o = true ↔ o.returncode = 0) := by
  refine ⟨install_package_run_ok o, ?_⟩
  rw [install_package_eq]
  simp

/-- C6: if `is_valid_package_name` accepts a string that is already in
cleaned form (no comment marker to strip, no surrounding whitespace — the
form in which the extractor presents every candidate), then the name is
non-empty, contains at least one alphanumeric character, its first
character is a letter or underscore, it does not begin with an underscore,
and it is absent from the stdlib table. -/
theorem C6_validator_guarantees (s : String) (hclean : cleanName s = s)
    (h : is_valid_package_name s = true) :
    s ≠ "" ∧ (s.data.any fun c => c.isAlphanum) = true ∧
    (s.data.headI.isAlpha = true ∨ s.data.headI = '_') ∧
    listStarts ['_'] s.data = false ∧ s ∉ STDLIB_PACKAGES := by
  unfold is_valid_package_name at h
  rw [hclean] at h
  simp only [Bool.and_eq_true, Bool.not_eq_true'] at h
  obtain ⟨⟨⟨⟨⟨h1, h2⟩, h3⟩, h4⟩, h5⟩, h6⟩ := h
  refine ⟨?_, h4, ?_, h6, ?_⟩
  · intro he
    subst he
    simp at h1
  · have h5' : s.data.headI.isAlpha = true ∨ (s.data.headI == '_') = true := by
      simpa using h5
    rcases h5' with h | h
    · exact Or.inl h
    · exact Or.inr (beq_iff_eq.mp h)
  · intro hm
    have hc : STDLIB_PACKAGES.contains s = true := by
      simpa [List.contains] using List.elem_iff.mpr hm
    rw [hc] at h2
    simp at h2

/-- C6 witness: the accepted cleaned name "requests" enjoys all the
guaranteed properties. -/
theorem C6_validator_guarantees_witness :
    "requests" ≠ "" ∧ ("requests".data.any fun c => c.isAlphanum) = true ∧
    ("requests".data.headI.isAlpha = true ∨ "requests".data.headI = '_') ∧
    listStarts ['_'] "requests".data = false ∧ "requests" ∉ STDLIB_PACKAGES :=
  C6_validator_guarantees "requests" (by decide) (by decide)

/-- C7: every record produced by `verify_package` satisfies
`isStdlib ⇒ isAvailable` and `isStdlib ⇒ installName absent`. -/
theorem C7_stdlib_record_invariants (env : String → SpecResult) (n : String)
    (h : (verify_package env n).is_stdlib = true) :
    (verify_package env n).is_available = true ∧
    (verify_package env n).install_name = none := by
  by_cases hm : stdlibLowerMem n = true
  · unfold verify_package
    rw [if_pos hm]
    exact ⟨rfl, rfl⟩
  · exfalso
    unfold verify_package at h
    rw [if_neg hm] at h
    cases henv : env n <;> rw [henv] at h <;> simp at h

/-- C7 witness: the stdlib record for "os" is available and carries no
install name. -/
theorem C7_stdlib_record_invariants_witness :
    (verify_package (fun _ => SpecResult.notFound) "os").is_available = true ∧
    (verify_package (fun _ => SpecResult.notFound) "os").install_name = none :=
  C7_stdlib_record_invariants (fun _ => SpecResult.notFound) "os" (by decide)

/-- C8: the four-line file `import os` / `import sys` /
`from pathlib import Path` / `import requests` yields exactly the raw
candidate names os, sys, pathlib, requests, and after the validity filter
(which embeds the standard-library test) exactly requests survives into
classification. -/
theorem C8_scenario_extraction :
    importCandidates ["import os", "import sys", "from pathlib import Path",
      "import requests"] = ["os", "sys", "pathlib", "requests"] ∧
    extract_imports ["import os", "import sys", "from pathlib import Path",
      "import requests"] = ["requests"] := by decide

/-- C10 (amended): rejection by substring containment applies to the
cleaned name: whenever the comment-stripped, whitespace-trimmed form of the
input contains any entry of INVALID_PATTERNS as a substring (for example
any cleaned name containing the letter run "lowest", such as "slowest", or
containing "%" anywhere), `is_valid_package_name` returns false. -/
theorem C10_pattern_rejection (s p : String) (h1 : p ∈ INVALID_PATTERNS)
    (h2 : strContains (cleanName s) p = true) :
    is_valid_package_name s = false := by
  unfold is_valid_package_name
  have hany : (INVALID_PATTERNS.any fun q => strContains (cleanName s) q) = true :=
    List.any_eq_true.mpr ⟨p, h1, h2⟩
  simp [hany]

/-- C10 counterexample: "foo " contains the invalid-pattern entry " "
(a space), yet `is_valid_package_name` accepts it, because the containment
check runs on the trimmed name — so the claim's universal containment
rejection over raw names fails. -/
theorem C10_counterexample :
    " " ∈ INVALID_PATTERNS ∧ strContains "foo " " " = true ∧
    is_valid_package_name "foo " = true := by decide

/-- C10 witness: "slowest" contains the pattern "lowest" and is rejected. -/
theorem C10_pattern_rejection_witness :
    is_valid_package_name "slowest" = false :=
  C10_pattern_rejection "slowest" "lowest" (by decide) (by decide)

/-- C1 (amended): in the install-bearing command-line path
(`install_missing_packages`), a verified record is submitted to
`install_package` iff it is non-stdlib, not available in the environment,
and its import name does not lowercase to "new"; the `process_packages`
path instead submits exactly the records that ARE available, non-stdlib
and carry an install name — so on that path available-and-present packages
are precisely the ones resubmitted for installation. -/
theorem C1_installer_selection (env : String → SpecResult) (imports : List String)
    (name : String) (h : name ∈ imports) :
    (verify_package env name ∈ installSubmitted env imports ↔
      (verify_package env name).is_stdlib = false ∧
      (verify_package env name).is_available = false ∧
      pyToLower name ≠ "new") ∧
    (verify_package env name ∈ process_to_install (imports.map (verify_package env)) ↔
      (verify_package env name).is_stdlib = false ∧
      (verify_package env name).is_available = true ∧
      truthy (verify_package env name).install_name = true) := by
  have hin : verify_package env name ∈ imports.map (verify_package env) :=
    List.mem_map_of_mem _ h
  have hname : (verify_package env name).import_name = name :=
    verify_package_import_name env name
  constructor
  · rw [installSubmitted, detect_missing_packages, List.mem_filter, List.mem_filter]
    simp only [hin, hname, true_and, Bool.and_eq_true, Bool.not_eq_true', beq_iff_eq,
      Bool.not_eq_true, Bool.not_eq_eq_eq_not, ne_eq, decide_eq_true_eq]
    constructor
    · rintro ⟨⟨ha, hs⟩, hn⟩
      refine ⟨hs, ha, ?_⟩
      intro he
      rw [he] at hn
      simp at hn
    · rintro ⟨hs, ha, hn⟩
      refine ⟨⟨ha, hs⟩, ?_⟩
      simp [hn]
  · rw [process_to_install, List.mem_filter]
    simp only [hin, true_and, Bool.and_eq_true, Bool.not_eq_true']
    constructor
    · rintro ⟨⟨ha, hs⟩, ht⟩
      exact ⟨hs, ha, ht⟩
    · rintro ⟨hs, ha, ht⟩
      exact ⟨⟨ha, hs⟩, ht⟩

/-- C1 witness: the missing third-party record "requests" is submitted on
the install path and not selected by the process path. -/
theorem C1_installer_selection_witness :
    (verify_package (fun _ => SpecResult.notFound) "requests" ∈
        installSubmitted (fun _ => SpecResult.notFound) ["requests"] ↔
      (verify_package (fun _ => SpecResult.notFound) "requests").is_stdlib = false ∧
      (verify_package (fun _ => SpecResult.notFound) "requests").is_available = false ∧
      pyToLower "requests" ≠ "new") ∧
    (verify_package (fun _ => SpecResult.notFound) "requests" ∈
        process_to_install (["requests"].map
          (verify_package (fun _ => SpecResult.notFound))) ↔
      (verify_package (fun _ => SpecResult.notFound) "requests").is_stdlib = false ∧
      (verify_package (fun _ => SpecResult.notFound) "requests").is_available = true ∧
      truthy (verify_package (fun _ => SpecResult.notFound) "requests").install_name
        = true) :=
  C1_installer_selection (fun _ => SpecResult.notFound) ["requests"] "requests"
    (by decide)

/-- C1 counterexample: the missing, non-stdlib record "new" is never
submitted by `install_missing_packages` (refuting the if direction of the
claimed iff), and `process_packages` selects the available-and-present
record "requests" for (re)installation (refuting "available-and-present
packages are never reinstalled"). -/
theorem C1_counterexample :
    ((verify_package (fun _ => SpecResult.notFound) "new").is_stdlib = false ∧
     (verify_package (fun _ => SpecResult.notFound) "new").is_available = false ∧
     installSubmitted (fun _ => SpecResult.notFound) ["new"] = []) ∧
    ((verify_package (fun _ => SpecResult.found) "requests").is_available = true ∧
     process_to_install [verify_package (fun _ => SpecResult.found) "requests"] =
       [verify_package (fun _ => SpecResult.found) "requests"]) := by decide

/-- C3: evaluation at the failing input — pip rejects the single missing
package "requests" with exit status 1: `install_package` returns false and
the results map records the failure while the batch completes, yet every
record of the run still has `install_status = none` (not attempted) and
`error_message = none`; no code path ever writes installStatus failed or a
non-empty errorMessage after a rejected installation attempt. -/
theorem C3_record_not_updated :
    install_package (PipOutcome.mk 1 "could not find a matching distribution")
      = false ∧
    install_missing_results (fun _ => SpecResult.notFound)
      (fun _ => PipOutcome.mk 1 "could not find a matching distribution")
      ["requests"] = [("requests", false)] ∧
    ((detect_missing_packages (fun _ => SpecResult.notFound) ["requests"]).all
      fun info => info.install_status == none && info.error_message == none)
      = true := by decide

/-- C4 (amended): `generate_requirements` selects exactly the records with
isAvailable true, isStdlib false and installName present, writes their
installNames sorted lexicographically ascending and newline-joined, and
writes nothing (a no-op, not an error) when the selection is empty;
duplicates are NOT removed, the sorted output is a permutation of the full
selection, so distinct import names sharing one install name repeat it. -/
theorem C4_requirements_contract (packages : List PackageInfo) :
    (generate_requirements packages = none ↔ requirementsSelection packages = []) ∧
    (requirementsSelection packages ≠ [] →
      generate_requirements packages =
        some (String.mk (List.intercalate ['\n']
          ((pySorted (requirementsSelection packages)).map String.data)))) ∧
    (pySorted (requirementsSelection packages)).Sorted (· ≤ ·) ∧
    (pySorted (requirementsSelection packages)).Perm
      (requirementsSelection packages) := by
  refine ⟨?_, ?_, pySorted_sorted _, pySorted_perm _⟩
  · unfold generate_requirements
    by_cases h : (requirementsSelection packages).isEmpty = true
    · rw [if_pos h]
      simp [List.isEmpty_iff.mp h]
    · rw [if_neg h]
      constructor
      · intro hc
        cases hc
      · intro hc
        exact absurd (by simp [hc]) h
  · intro hne
    unfold generate_requirements
    rw [if_neg fun hc => hne (List.isEmpty_iff.mp hc)]

/-- C4 witness: a singleton available third-party record produces the
sorted one-line manifest. -/
theorem C4_requirements_contract_witness :
    generate_requirements
      [PackageInfo.mk "requests" (some "requests") false true none none] =
      some (String.mk (List.intercalate ['\n']
        ((pySorted (requirementsSelection
          [PackageInfo.mk "requests" (some "requests") false true none none])).map
          String.data))) :=
  (C4_requirements_contract
    [PackageInfo.mk "requests" (some "requests") false true none none]).2.1
    (by decide)

/-- C4 counterexample: a record set importing both PIL and Pillow (both
available, both mapping to install name "Pillow") produces the manifest
text "Pillow\nPillow" — a duplicated line, so the written names are not
deduplicated as claimed. -/
theorem C4_counterexample :
    requirementsSelection
      [verify_package (fun _ => SpecResult.found) "PIL",
       verify_package (fun _ => SpecResult.found) "Pillow"] =
      ["Pillow", "Pillow"] ∧
    generate_requirements
      [verify_package (fun _ => SpecResult.found) "PIL",
       verify_package (fun _ => SpecResult.found) "Pillow"] =
      some "Pillow\nPillow" := by decide

/-- Lookup in the record map built by folding verification results over an
arbitrary completion order. -/
theorem buildRecordMap_foldl (env : String → SpecResult) (k : String) :
    ∀ (l : List String) (m : String → Option PackageInfo),
      (l.foldl (fun m name => insertRecord m name (verify_package env name)) m) k =
        if k ∈ l then some (verify_package env k) else m k := by
  intro l
  induction l with
  | nil =>
    intro m
    simp
  | cons a t ih =>
    intro m
    rw [List.foldl_cons, ih]
    by_cases hk : k ∈ t
    · simp [hk, List.mem_cons]
    · by_cases ha : k = a
      · subst ha
        simp [hk, insertRecord]
      · simp [hk, ha, insertRecord, List.mem_cons]

/-- C9: the final record map of the concurrent verification stage is the
same for any two completion orders that are permutations of each other:
each key holds the verification result for its own name regardless of
order, and a different worker-pool size only changes the completion
order. -/
theorem C9_verification_deterministic (env : String → SpecResult)
    (l₁ l₂ : List String) (h : l₁.Perm l₂) (k : String) :
    buildRecordMap env l₁ k = buildRecordMap env l₂ k := by
  unfold buildRecordMap
  rw [buildRecordMap_foldl, buildRecordMap_foldl]
  simp [h.mem_iff]

/-- C9 witness: two opposite completion orders over the names numpy and
requests give the same record at key numpy. -/
theorem C9_verification_deterministic_witness :
    buildRecordMap (fun _ => SpecResult.notFound) ["numpy", "requests"] "numpy" =
      buildRecordMap (fun _ => SpecResult.notFound) ["requests", "numpy"] "numpy" :=
  C9_verification_deterministic (fun _ => SpecResult.notFound)
    ["numpy", "requests"] ["requests", "numpy"] (by decide) "numpy"

end MissingModules
